import Mathlib

/-!
Verification of the KPI metric-ownership core: a shallow embedding in Lean 4
of the decomposition, metric-engine and segmentation modules
(`src/analysis/decomposition.py`, `src/metrics/compute.py`,
`src/metrics/definitions.py`).

Modelling conventions:
* Python floats are embedded as exact rationals (`ℚ`).  All the numeric
  scenarios in the claims use small dyadic values, at which IEEE-754 double
  arithmetic is exact, so the rational model agrees with the float code there.
* Python exceptions are embedded as `Except ErrKind`.  The code raises
  `ValueError` everywhere; `ErrKind` records the error *kind* of the design's
  error taxonomy, identified by the raise site / message
  (grain mismatch, threshold violation, decomposition error, ...).
* `NaN`/null cells and values are embedded as `Option ℚ` (`none` = null).
* A pandas DataFrame in the metric engine is embedded column-wise:
  a list of (column name, cells) pairs, since the engine's logic branches on
  column presence.  The user-level table consumed by the segmentation module
  is embedded row-wise (a list of records), since that code is row-oriented.
-/

namespace KPI

/-- Error kinds of the design's error taxonomy.  Every raise site of the
Python source is mapped to one of these kinds. -/
inductive ErrKind where
  | unknownMetric
  | grainMismatch
  | missingColumns
  | thresholdViolation
  | nullMetricValue
  | decompositionError
  | emptyData
  | computationFailed
  deriving Repr, DecidableEq

/-! ## Decomposition (`src/analysis/decomposition.py`) -/

/-- The two-period input of `decompose_vpac_change`: a mapping with keys
`vpac`, `orders_per_customer`, `items_per_order` (decomposition.py lines
96–104). -/
structure PeriodMetrics where
  vpac : ℚ
  orders_per_customer : ℚ
  items_per_order : ℚ
  deriving Repr, DecidableEq

/-- Embeds `DecompositionResult` (decomposition.py lines 15–35).  The
`driver_contributions` dict always carries exactly the three keys
`orders_per_customer`, `items_per_order`, `interaction` (lines 126–130),
so it is embedded as three named fields. -/
structure DecompositionResult where
  metric_name : String
  total_change : ℚ
  absolute_change : ℚ
  percent_change : ℚ
  contrib_orders_per_customer : ℚ
  contrib_items_per_order : ℚ
  contrib_interaction : ℚ
  period_start : String
  period_end : String
  deriving Repr, DecidableEq

/-- Embeds `sum(result.driver_contributions.values())` (decomposition.py line 160). -/
def DecompositionResult.contribSum (r : DecompositionResult) : ℚ :=
  r.contrib_orders_per_customer + r.contrib_items_per_order + r.contrib_interaction

/-- Embeds `VPACDecomposer.decompose_vpac_change` (decomposition.py lines 67–144).
The append to `decomposition_history` (line 142) is a pure append to an
instance-local list and does not affect the returned value; it is omitted. -/
def decompose_vpac_change (p1 p2 : PeriodMetrics)
    (label1 : String := "Period 1") (label2 : String := "Period 2") :
    DecompositionResult :=
  let vpac1 := p1.vpac
  let vpac2 := p2.vpac
  let total_change := vpac2 - vpac1
  let percent_change := if vpac1 ≠ 0 then vpac2 / vpac1 - 1 else 0
  let delta_orders_per_cust := p2.orders_per_customer - p1.orders_per_customer
  let delta_items_per_order := p2.items_per_order - p1.items_per_order
  let avg_orders_per_cust := (p1.orders_per_customer + p2.orders_per_customer) / 2
  let avg_items_per_order := (p1.items_per_order + p2.items_per_order) / 2
  let orders_per_cust_contribution := delta_orders_per_cust * avg_items_per_order
  let items_per_order_contribution := avg_orders_per_cust * delta_items_per_order
  let interaction :=
    total_change - (orders_per_cust_contribution + items_per_order_contribution)
  { metric_name := "vpac"
    total_change := total_change
    absolute_change := total_change
    percent_change := percent_change
    contrib_orders_per_customer := orders_per_cust_contribution
    contrib_items_per_order := items_per_order_contribution
    contrib_interaction := interaction
    period_start := label1
    period_end := label2 }

/-- Embeds `VPACDecomposer.validate_decomposition` (decomposition.py lines 146–170).
Returns `Except.ok true` or fails; the raise site at lines 164–168 is of
kind `decompositionError` in the design's taxonomy. -/
def validate_decomposition (result : DecompositionResult)
    (tolerance : ℚ := 1/100) : Except ErrKind Bool :=
  let component_sum := result.contribSum
  let error := |component_sum - result.total_change|
  let error_fraction :=
    if result.total_change ≠ 0 then error / |result.total_change| else error
  if error_fraction > tolerance then Except.error ErrKind.decompositionError
  else Except.ok true

/-- Modelled from the spec's words (§4.3), for the refinement claim about
`decompose_vpac_change`: the reference midpoint decomposition.
`total_change = vpac2 − vpac1`; `percent_change = vpac2/vpac1 − 1`, or `0`
if `vpac1 == 0`; orders contribution `Δo × ī`; items contribution `ō × Δi`;
`interaction = total_change − (orders_contribution + items_contribution)`. -/
def spec_midpoint_decomposition (p1 p2 : PeriodMetrics)
    (label1 label2 : String) : DecompositionResult :=
  let total := p2.vpac - p1.vpac
  let pct := if p1.vpac = 0 then 0 else p2.vpac / p1.vpac - 1
  let oContrib := (p2.orders_per_customer - p1.orders_per_customer) *
    ((p1.items_per_order + p2.items_per_order) / 2)
  let iContrib := ((p1.orders_per_customer + p2.orders_per_customer) / 2) *
    (p2.items_per_order - p1.items_per_order)
  { metric_name := "vpac"
    total_change := total
    absolute_change := total
    percent_change := pct
    contrib_orders_per_customer := oContrib
    contrib_items_per_order := iContrib
    contrib_interaction := total - (oContrib + iContrib)
    period_start := label1
    period_end := label2 }

/-! ## DataFrame model for the metric engine
(`src/metrics/definitions.py`, `src/metrics/compute.py`) -/

/-- A pandas cell: `none` embeds NaN/null. -/
abbrev Cell := Option ℚ

/-- Column-wise embedding of the pandas DataFrames consumed by the metric
engine: a list of (column name, cells) pairs.  The engine's logic branches on
column presence (`'user_id' in data.columns`, `'orders' in data.columns`). -/
structure DataFrame where
  cols : List (String × List Cell)
  deriving Repr, DecidableEq

/-- Embeds `name in data.columns`. -/
def DataFrame.hasCol (df : DataFrame) (c : String) : Bool :=
  df.cols.any (fun p => p.1 == c)

/-- The cells of a column (defaults to the empty column when absent;
only used under a `hasCol` guard or behind `getColE`). -/
def DataFrame.getCol (df : DataFrame) (c : String) : List Cell :=
  ((df.cols.find? (fun p => p.1 == c)).map (fun p => p.2)).getD []

/-- Embeds `len(data)`: the number of rows (the common length of the columns). -/
def DataFrame.nRows (df : DataFrame) : Nat :=
  match df.cols with
  | [] => 0
  | c :: _ => c.2.length

/-- Exceptions a metric computation function can raise, as distinguished by
the `try/except` of `MetricDefinition.compute` (definitions.py lines
146–157): `ZeroDivisionError` vs anything else (e.g. pandas `KeyError`). -/
inductive CompExc where
  | zeroDivisionError
  | otherError
  deriving Repr, DecidableEq

/-- Embeds `data[c]`: subscripting a DataFrame raises `KeyError` when the column is
missing. -/
def DataFrame.getColE (df : DataFrame) (c : String) : Except CompExc (List Cell) :=
  if df.hasCol c then Except.ok (df.getCol c) else Except.error CompExc.otherError

/-- Embeds `Series.mean()` with pandas' default `skipna`: the mean of the non-null
cells, NaN when there are none. -/
def meanCol (cells : List Cell) : Cell :=
  let vs := cells.filterMap id
  if vs.isEmpty then none else some (vs.sum / vs.length)

/-- Embeds `Series.median()` with pandas' default `skipna`: the median of the sorted
non-null cells (mean of the two middle elements for an even count), NaN when
there are none. -/
def medianCol (cells : List Cell) : Cell :=
  let vs := List.insertionSort (· ≤ ·) (cells.filterMap id)
  let n := vs.length
  if n = 0 then none
  else if n % 2 = 1 then some (vs.getD (n / 2) 0)
  else some ((vs.getD (n / 2 - 1) 0 + vs.getD (n / 2) 0) / 2)

/-- NaN-propagating product of two cells. -/
def mulCell (a b : Cell) : Cell :=
  match a, b with
  | some x, some y => some (x * y)
  | _, _ => none

/-! ### Computation functions (definitions.py lines 246–278) -/

/-- Embeds `compute_vpac` (definitions.py lines 246–248). -/
def compute_vpac (data : DataFrame) : Except CompExc Cell :=
  match data.getColE "orders_per_customer" with
  | Except.error e => Except.error e
  | Except.ok a =>
    match data.getColE "avg_basket_size" with
    | Except.error e => Except.error e
    | Except.ok b => Except.ok (mulCell (meanCol a) (meanCol b))

/-- Embeds `compute_active_customers` (definitions.py lines 251–253): `len(data)`. -/
def compute_active_customers (data : DataFrame) : Except CompExc Cell :=
  Except.ok (some (data.nRows : ℚ))

/-- Embeds `compute_orders_per_customer` (definitions.py lines 256–258): the mean of
the `orders` column when present, else of the `orders_per_customer` column. -/
def compute_orders_per_customer (data : DataFrame) : Except CompExc Cell :=
  if data.hasCol "orders" then Except.ok (meanCol (data.getCol "orders"))
  else
    match data.getColE "orders_per_customer" with
    | Except.error e => Except.error e
    | Except.ok c => Except.ok (meanCol c)

/-- Embeds `compute_items_per_order` (definitions.py lines 261–263). -/
def compute_items_per_order (data : DataFrame) : Except CompExc Cell :=
  match data.getColE "avg_basket_size" with
  | Except.error e => Except.error e
  | Except.ok c => Except.ok (meanCol c)

/-- The product `compute_orders_per_customer(table) *
compute_items_per_order(table)` of the VPAC-identity property, with the
Python evaluation order (a raised `KeyError` propagates from the left
factor first). -/
def vpac_component_product (data : DataFrame) : Except CompExc Cell :=
  match compute_orders_per_customer data with
  | Except.error e => Except.error e
  | Except.ok o =>
    match compute_items_per_order data with
    | Except.error e => Except.error e
    | Except.ok i => Except.ok (mulCell o i)

/-- Embeds `compute_reorder_rate` (definitions.py lines 266–268). -/
def compute_reorder_rate (data : DataFrame) : Except CompExc Cell :=
  match data.getColE "reorder_rate" with
  | Except.error e => Except.error e
  | Except.ok c => Except.ok (meanCol c)

/-- Embeds `compute_small_basket_share` (definitions.py lines 271–273). -/
def compute_small_basket_share (data : DataFrame) : Except CompExc Cell :=
  match data.getColE "small_basket_share" with
  | Except.error e => Except.error e
  | Except.ok c => Except.ok (meanCol c)

/-- Embeds `compute_median_days_since_prior` (definitions.py lines 276–278). -/
def compute_median_days_since_prior (data : DataFrame) : Except CompExc Cell :=
  match data.getColE "median_days_since_prior" with
  | Except.error e => Except.error e
  | Except.ok c => Except.ok (medianCol c)

/-! ### Metric definitions (definitions.py lines 23–224) -/

/-- Embeds `MetricGrain` (definitions.py lines 23–28). -/
inductive MetricGrain where
  | user
  | order
  | overall
  | category
  deriving Repr, DecidableEq

/-- Embeds `MetricType` (definitions.py lines 31–36). -/
inductive MetricType where
  | north_star
  | driver
  | guardrail
  | diagnostic
  deriving Repr, DecidableEq

/-- Embeds `MetricDirectionality` (definitions.py lines 39–43). -/
inductive MetricDirectionality where
  | higher_is_better
  | lower_is_better
  | neutral
  deriving Repr, DecidableEq

/-- Embeds `MetricTier` (definitions.py lines 46–51). -/
inductive MetricTier where
  | P0_EXECUTIVE
  | P1_LEADERSHIP
  | P2_OPERATIONAL
  | P3_DIAGNOSTIC
  deriving Repr, DecidableEq

/-- Embeds `RefreshCadence` (definitions.py lines 54–60). -/
inductive RefreshCadence where
  | realtime
  | hourly
  | daily
  | weekly
  | monthly
  deriving Repr, DecidableEq

/-- The enums' `.value` strings used in result rows. -/
def MetricType.value : MetricType → String
  | .north_star => "north_star"
  | .driver => "driver"
  | .guardrail => "guardrail"
  | .diagnostic => "diagnostic"

def MetricTier.value : MetricTier → String
  | .P0_EXECUTIVE => "P0"
  | .P1_LEADERSHIP => "P1"
  | .P2_OPERATIONAL => "P2"
  | .P3_DIAGNOSTIC => "P3"

def MetricDirectionality.value : MetricDirectionality → String
  | .higher_is_better => "higher_is_better"
  | .lower_is_better => "lower_is_better"
  | .neutral => "neutral"

/-- The `division_by_zero` validation rule
(`"error"` / `"return_zero"` / `"return_null"`, default `"error"`). -/
inductive DivZeroRule where
  | raiseError
  | returnZero
  | returnNull
  deriving Repr, DecidableEq

/-- The `thresholds` dict: optional keys `min`, `max`, `warn_min`,
`warn_max`. -/
structure Thresholds where
  min : Option ℚ := none
  max : Option ℚ := none
  warn_min : Option ℚ := none
  warn_max : Option ℚ := none
  deriving Repr, DecidableEq

/-- The `validation_rules` dict with the defaults the code's `.get` calls
use for absent keys. -/
structure ValidationRules where
  allow_empty : Bool := false
  allow_null : Bool := false
  division_by_zero : DivZeroRule := DivZeroRule.raiseError
  required_columns : List String := []
  deriving Repr, DecidableEq

/-- Whether `v` is strictly below an optional lower bound. -/
def belowBound (bound : Option ℚ) (v : ℚ) : Bool :=
  match bound with
  | some b => v < b
  | none => false

/-- Whether `v` is strictly above an optional upper bound. -/
def aboveBound (bound : Option ℚ) (v : ℚ) : Bool :=
  match bound with
  | some b => b < v
  | none => false

/-- Embeds `MetricDefinition` (definitions.py lines 67–118). -/
structure MetricDefinition where
  name : String
  display_name : String
  grain : MetricGrain
  metric_type : MetricType
  formula : String
  computation_fn : DataFrame → Except CompExc Cell
  unit : String
  description : String
  owner : String
  owner_role : String
  tier : MetricTier := MetricTier.P2_OPERATIONAL
  refresh_cadence : RefreshCadence := RefreshCadence.weekly
  directionality : MetricDirectionality := MetricDirectionality.neutral
  review_cadence : String := "weekly"
  thresholds : Thresholds := Thresholds.mk none none none none
  validation_rules : ValidationRules := ValidationRules.mk false false DivZeroRule.raiseError []
  dependencies : List String := []

/-- Embeds `MetricDefinition.compute` (definitions.py lines 120–165): empty-data and
required-column checks, the computation call with its `ZeroDivisionError` and
catch-all handlers, and the null-result check. -/
def MetricDefinition.compute (m : MetricDefinition) (data : DataFrame) :
    Except ErrKind Cell :=
  if data.nRows = 0 then
    if m.validation_rules.allow_empty then Except.ok (some 0)
    else Except.error ErrKind.emptyData
  else
    if m.validation_rules.required_columns.any (fun c => ¬ data.hasCol c) then
      Except.error ErrKind.missingColumns
    else
      match m.computation_fn data with
      | Except.error CompExc.zeroDivisionError =>
          match m.validation_rules.division_by_zero with
          | DivZeroRule.returnZero => Except.ok (some 0)
          | DivZeroRule.returnNull => Except.ok none
          | DivZeroRule.raiseError => Except.error ErrKind.computationFailed
      | Except.error CompExc.otherError => Except.error ErrKind.computationFailed
      | Except.ok none =>
          if m.validation_rules.allow_null then Except.ok none
          else Except.error ErrKind.nullMetricValue
      | Except.ok (some v) => Except.ok (some v)

/-- Embeds `MetricDefinition.validate` (definitions.py lines 167–197): null check
then hard `min`/`max` thresholds. -/
def MetricDefinition.validate (m : MetricDefinition) (value : Cell) :
    Except ErrKind Bool :=
  match value with
  | none =>
      if m.validation_rules.allow_null then Except.ok true
      else Except.error ErrKind.nullMetricValue
  | some v =>
      if belowBound m.thresholds.min v then Except.error ErrKind.thresholdViolation
      else if aboveBound m.thresholds.max v then Except.error ErrKind.thresholdViolation
      else Except.ok true

/-- Embeds `MetricDefinition.get_status` (definitions.py lines 199–224). -/
def MetricDefinition.get_status (m : MetricDefinition) (value : Cell) : String :=
  match value with
  | none => "UNKNOWN"
  | some v =>
      if belowBound m.thresholds.min v then "CRITICAL"
      else if aboveBound m.thresholds.max v then "CRITICAL"
      else if belowBound m.thresholds.warn_min v then "WARNING"
      else if aboveBound m.thresholds.warn_max v then "WARNING"
      else "OK"

/-! ### Metric registry (definitions.py lines 285–425) -/

/-- Embeds `create_metric_registry` (definitions.py lines 285–425): the seven
hardcoded metric definitions, in the dict's insertion order. -/
def create_metric_registry : List (String × MetricDefinition) :=
  [ ("vpac",
     { name := "vpac"
       display_name := "Value per Active Customer (VPAC)"
       grain := MetricGrain.overall
       metric_type := MetricType.north_star
       formula := "orders_per_customer × items_per_order"
       computation_fn := compute_vpac
       unit := "items/customer"
       description := "Total items ordered per active customer (North Star metric)"
       owner := "Product Growth Lead"
       owner_role := "Growth"
       tier := MetricTier.P0_EXECUTIVE
       refresh_cadence := RefreshCadence.daily
       directionality := MetricDirectionality.higher_is_better
       review_cadence := "daily"
       thresholds := { min := some 0, warn_min := some 100 }
       validation_rules := { division_by_zero := DivZeroRule.raiseError }
       dependencies := ["orders_per_customer", "items_per_order"] }),
    ("active_customers",
     { name := "active_customers"
       display_name := "Active Customers"
       grain := MetricGrain.overall
       metric_type := MetricType.driver
       formula := "COUNT(DISTINCT user_id)"
       computation_fn := compute_active_customers
       unit := "customers"
       description := "Number of customers with at least one order"
       owner := "Marketing Lead"
       owner_role := "Growth"
       tier := MetricTier.P0_EXECUTIVE
       refresh_cadence := RefreshCadence.daily
       directionality := MetricDirectionality.higher_is_better
       review_cadence := "daily"
       thresholds := { min := some 1 }
       validation_rules := { allow_empty := false } }),
    ("orders_per_customer",
     { name := "orders_per_customer"
       display_name := "Orders per Customer"
       grain := MetricGrain.user
       metric_type := MetricType.driver
       formula := "AVG(orders)"
       computation_fn := compute_orders_per_customer
       unit := "orders/customer"
       description := "Average number of orders per customer (frequency)"
       owner := "Retention PM"
       owner_role := "Lifecycle"
       tier := MetricTier.P0_EXECUTIVE
       refresh_cadence := RefreshCadence.weekly
       directionality := MetricDirectionality.higher_is_better
       review_cadence := "weekly"
       thresholds := { min := some 1 } }),
    ("items_per_order",
     { name := "items_per_order"
       display_name := "Items per Order"
       grain := MetricGrain.user
       metric_type := MetricType.driver
       formula := "AVG(avg_basket_size)"
       computation_fn := compute_items_per_order
       unit := "items/order"
       description := "Average items per order (basket depth)"
       owner := "Merchandising PM"
       owner_role := "Merchandising"
       tier := MetricTier.P0_EXECUTIVE
       refresh_cadence := RefreshCadence.weekly
       directionality := MetricDirectionality.higher_is_better
       review_cadence := "weekly"
       thresholds := { min := some 1 } }),
    ("reorder_rate",
     { name := "reorder_rate"
       display_name := "Reorder Rate"
       grain := MetricGrain.user
       metric_type := MetricType.guardrail
       formula := "AVG(reorder_rate)"
       computation_fn := compute_reorder_rate
       unit := "rate"
       description := "% of items that are reorders (loyalty indicator)"
       owner := "Retention PM"
       owner_role := "Lifecycle"
       tier := MetricTier.P1_LEADERSHIP
       refresh_cadence := RefreshCadence.weekly
       directionality := MetricDirectionality.higher_is_better
       review_cadence := "weekly"
       thresholds := { min := some 0, max := some 1, warn_min := some (3/10) }
       validation_rules := { allow_null := false } }),
    ("small_basket_share",
     { name := "small_basket_share"
       display_name := "Small Basket Share"
       grain := MetricGrain.user
       metric_type := MetricType.guardrail
       formula := "AVG(small_basket_share)"
       computation_fn := compute_small_basket_share
       unit := "rate"
       description := "% of orders with ≤3 items (quality flag)"
       owner := "Product Quality Lead"
       owner_role := "Product"
       tier := MetricTier.P1_LEADERSHIP
       refresh_cadence := RefreshCadence.weekly
       directionality := MetricDirectionality.lower_is_better
       review_cadence := "weekly"
       thresholds := { min := some 0, max := some 1, warn_max := some (3/10) } }),
    ("median_days_since_prior",
     { name := "median_days_since_prior"
       display_name := "Median Days Between Orders"
       grain := MetricGrain.user
       metric_type := MetricType.guardrail
       formula := "MEDIAN(median_days_since_prior)"
       computation_fn := compute_median_days_since_prior
       unit := "days"
       description := "Median days between consecutive orders (frequency health)"
       owner := "Retention PM"
       owner_role := "Lifecycle"
       tier := MetricTier.P2_OPERATIONAL
       refresh_cadence := RefreshCadence.weekly
       directionality := MetricDirectionality.lower_is_better
       review_cadence := "weekly"
       thresholds := { min := some 1, warn_max := some 30 }
       validation_rules := { allow_null := true } }) ]

/-! ### Metric engine (compute.py)

The engine's `_get_user_kpis` fetches the user-level table from the external
data provider (out of the core's scope); the table is therefore an explicit
argument here.  The engine's `_cache` dict is threaded explicitly as a list of
(metric name, value) pairs. -/

/-- The per-metric value cache `MetricEngine._cache`. -/
abbrev Cache := List (String × Cell)

/-- Embeds `metric_name in self._cache` / `self._cache[metric_name]`. -/
def cacheLookup (cache : Cache) (metric_name : String) : Option Cell :=
  (cache.find? (fun p => p.1 == metric_name)).map (fun p => p.2)

/-- Embeds `self._cache[metric_name] = value`: overwrite when present, append
otherwise (dict assignment). -/
def cacheInsert (cache : Cache) (metric_name : String) (v : Cell) : Cache :=
  if cache.any (fun p => p.1 == metric_name) then
    cache.map (fun p => if p.1 == metric_name then (metric_name, v) else p)
  else cache ++ [(metric_name, v)]

/-- Embeds `MetricEngine._enforce_grain` (compute.py lines 207–241).  All three
raise sites are `ValueError`; the first two are of kind `grainMismatch`,
the OVERALL-empty one reports empty data. -/
def enforce_grain (m : MetricDefinition) (data : DataFrame) : Except ErrKind Unit :=
  if m.grain = MetricGrain.user ∧ ¬ data.hasCol "user_id" then
    Except.error ErrKind.grainMismatch
  else if m.grain = MetricGrain.order ∧ ¬ data.hasCol "order_id" then
    Except.error ErrKind.grainMismatch
  else if m.grain = MetricGrain.overall ∧ data.nRows = 0 then
    Except.error ErrKind.emptyData
  else Except.ok ()

/-- One row of the tables built by `compute_metrics_by_layer`
(compute.py lines 102–114 and 126–138). -/
structure MetricRow where
  metric_name : String
  display_name : String
  metric_type : String
  tier : String
  value : Cell
  unit : String
  owner : String
  owner_role : String
  formula : String
  directionality : String
  status : String
  deriving Repr, DecidableEq

/-- The result record of compute.py lines 102–114. -/
def buildRow (metric_name : String) (m : MetricDefinition) (value : Cell)
    (status : String) : MetricRow :=
  { metric_name := metric_name
    display_name := m.display_name
    metric_type := m.metric_type.value
    tier := m.tier.value
    value := value
    unit := m.unit
    owner := m.owner
    owner_role := m.owner_role
    formula := m.formula
    directionality := m.directionality.value
    status := status }

/-- The body of the `try` block of `compute_metrics_by_layer` for one metric
(compute.py lines 87–99): grain enforcement, then cache check (computing and
memoizing on a miss), then validation.  The cache is returned alongside the
outcome because the memoization at line 96 persists even when the later
validation raises. -/
def perMetricBatch (metric_name : String) (m : MetricDefinition) (cache : Cache)
    (data : DataFrame) : Except ErrKind Cell × Cache :=
  match enforce_grain m data with
  | Except.error e => (Except.error e, cache)
  | Except.ok _ =>
    let fetched : Except ErrKind Cell × Cache :=
      match cacheLookup cache metric_name with
      | some v => (Except.ok v, cache)
      | none =>
        match m.compute data with
        | Except.error e => (Except.error e, cache)
        | Except.ok v => (Except.ok v, cacheInsert cache metric_name v)
    match fetched with
    | (Except.error e, cache2) => (Except.error e, cache2)
    | (Except.ok v, cache2) =>
      match m.validate v with
      | Except.error e => (Except.error e, cache2)
      | Except.ok _ => (Except.ok v, cache2)

/-- Embeds `MetricEngine.compute_metrics_by_layer` (compute.py lines 65–146):
loops over the registry; a successful metric's row goes to the executive
list when its tier is P0/P1 and to the diagnostic list otherwise; any
per-metric error is caught and yields a row with null value and `ERROR`
status, always routed to the diagnostic list. -/
def compute_metrics_by_layer (registry : List (String × MetricDefinition))
    (cache : Cache) (data : DataFrame) :
    List MetricRow × List MetricRow × Cache :=
  match registry with
  | [] => ([], [], cache)
  | (metric_name, m) :: rest =>
    match perMetricBatch metric_name m cache data with
    | (Except.ok v, cache2) =>
      let row := buildRow metric_name m v (m.get_status v)
      let rec_ := compute_metrics_by_layer rest cache2 data
      if [MetricTier.P0_EXECUTIVE, MetricTier.P1_LEADERSHIP].contains m.tier then
        (row :: rec_.1, rec_.2.1, rec_.2.2)
      else
        (rec_.1, row :: rec_.2.1, rec_.2.2)
    | (Except.error _, cache2) =>
      let row := buildRow metric_name m none "ERROR"
      let rec_ := compute_metrics_by_layer rest cache2 data
      (rec_.1, row :: rec_.2.1, rec_.2.2)

/-- Embeds `MetricEngine.compute_all_metrics` (compute.py lines 52–63): the two
layers concatenated, executive rows first. -/
def compute_all_metrics (registry : List (String × MetricDefinition))
    (cache : Cache) (data : DataFrame) : List MetricRow × Cache :=
  let layers := compute_metrics_by_layer registry cache data
  (layers.1 ++ layers.2.1, layers.2.2)

/-- Embeds `MetricEngine.compute` (compute.py lines 148–187), the single-metric
path: registry lookup, then the cache check (line 169) — which precedes
grain enforcement (line 176) — then computation, validation, and
memoization.  Returns the outcome together with the resulting cache. -/
def engine_compute (registry : List (String × MetricDefinition))
    (metric_name : String) (use_cache : Bool) (cache : Cache)
    (data : DataFrame) : Except ErrKind Cell × Cache :=
  match registry.find? (fun p => p.1 == metric_name) with
  | none => (Except.error ErrKind.unknownMetric, cache)
  | some p =>
    match (if use_cache then cacheLookup cache metric_name else none) with
    | some v => (Except.ok v, cache)
    | none =>
      match enforce_grain p.2 data with
      | Except.error e => (Except.error e, cache)
      | Except.ok _ =>
        match p.2.compute data with
        | Except.error e => (Except.error e, cache)
        | Except.ok v =>
          match p.2.validate v with
          | Except.error e => (Except.error e, cache)
          | Except.ok _ => (Except.ok v, cacheInsert cache metric_name v)

/-! ## Customer segmentation (`src/analysis/decomposition.py` lines 209–313)

The user-level table here is embedded row-wise.  `UserRow` carries the five
columns the segmentation code touches; the table state additionally records
extra columns (such as the `segment` column the code assigns onto its input),
so that the in-place mutation of the caller's DataFrame is observable. -/

/-- One row of the user-level KPI table, restricted to the columns the
segmentation code reads. -/
structure UserRow where
  user_id : ℚ
  orders : ℚ
  items : ℚ
  orders_per_customer : ℚ
  avg_basket_size : ℚ
  deriving Repr, DecidableEq

/-- The state of a user-level DataFrame: its rows plus any extra (label)
columns present beyond the base schema. -/
structure UserTable where
  rows : List UserRow
  extra : List (String × List String) := []
  deriving Repr, DecidableEq

/-- Embeds `df[name] = values` for a label column: overwrite when present, append
otherwise. -/
def setExtraCol (t : UserTable) (name : String) (values : List String) : UserTable :=
  if t.extra.any (fun p => p.1 == name) then
    { t with extra := t.extra.map (fun p => if p.1 == name then (name, values) else p) }
  else
    { t with extra := t.extra ++ [(name, values)] }

/-- Embeds `assign_segment` (decomposition.py lines 232–240). -/
def assign_segment (orders : ℚ) : String :=
  if orders = 1 then "One-time"
  else if orders ≤ 4 then "Occasional"
  else if orders ≤ 10 then "Regular"
  else "Power User"

/-- The fixed reindexing order (decomposition.py line 270). -/
def segment_order : List String := ["One-time", "Occasional", "Regular", "Power User"]

/-- The rows falling into one segment (the groupby group). -/
def segmentGroup (rows : List UserRow) (seg : String) : List UserRow :=
  rows.filter (fun r => assign_segment r.orders == seg)

/-- Mean of a nonempty list of rationals (pandas groupby mean; groupby
groups are nonempty by construction). -/
def meanQ (l : List ℚ) : ℚ := l.sum / (l.length : ℚ)

/-- Segment subtotal of the `orders` column. -/
def groupOrders (rows : List UserRow) (seg : String) : ℚ :=
  ((segmentGroup rows seg).map (fun r => r.orders)).sum

/-- Segment subtotal of the `items` column. -/
def groupItems (rows : List UserRow) (seg : String) : ℚ :=
  ((segmentGroup rows seg).map (fun r => r.items)).sum

/-- Embeds `segment_summary['customer_count'].sum()`: the grand total of customer
counts across the groupby rows.  Summing over the four fixed segments is
the same value, because an unpopulated segment contributes `0`. -/
def customerGrand (rows : List UserRow) : ℚ :=
  (segment_order.map (fun s => ((segmentGroup rows s).length : ℚ))).sum

/-- Embeds `segment_summary['orders'].sum()`. -/
def ordersGrand (rows : List UserRow) : ℚ :=
  (segment_order.map (fun s => groupOrders rows s)).sum

/-- Embeds `segment_summary['items'].sum()`. -/
def itemsGrand (rows : List UserRow) : ℚ :=
  (segment_order.map (fun s => groupItems rows s)).sum

/-- One row of the segment summary (decomposition.py lines 245–267):
aggregates, derived segment-level `vpac`, and the three share columns.
Share denominators are the grand totals across all segments; rational
division by a zero grand total is `0` here where pandas float division
yields NaN — under either semantics such a share column does not sum to 1. -/
structure SegmentRow where
  customer_count : Nat
  orders : ℚ
  items : ℚ
  orders_per_customer : ℚ
  avg_basket_size : ℚ
  vpac : ℚ
  customer_share : ℚ
  order_share : ℚ
  item_share : ℚ
  deriving Repr, DecidableEq

/-- The summary row of one segment, or `none` (the reindexed row of nulls,
decomposition.py line 271) when the segment is unpopulated. -/
def makeSegmentRow (rows : List UserRow) (seg : String) : Option SegmentRow :=
  let g := segmentGroup rows seg
  if g.isEmpty then none
  else
    let opcMean := meanQ (g.map (fun r => r.orders_per_customer))
    let absMean := meanQ (g.map (fun r => r.avg_basket_size))
    some
      { customer_count := g.length
        orders := groupOrders rows seg
        items := groupItems rows seg
        orders_per_customer := opcMean
        avg_basket_size := absMean
        vpac := opcMean * absMean
        customer_share := (g.length : ℚ) / customerGrand rows
        order_share := groupOrders rows seg / ordersGrand rows
        item_share := groupItems rows seg / itemsGrand rows }

/-- Embeds `CustomerSegmentation.segment_by_order_frequency` (decomposition.py lines
214–273).  Returns the post-call state of the caller's table — the function
assigns a `segment` column onto its input at line 242 — together with the
reindexed segment summary in the fixed order of line 270. -/
def segment_by_order_frequency (user_kpis : UserTable) :
    UserTable × List (String × Option SegmentRow) :=
  let mutated := setExtraCol user_kpis "segment"
    (user_kpis.rows.map (fun r => assign_segment r.orders))
  (mutated, segment_order.map (fun s => (s, makeSegmentRow user_kpis.rows s)))

/-- The `customer_count` cell of a (possibly null) summary row; a null row
contributes 0 to column sums, as in pandas. -/
def optCount (x : Option SegmentRow) : Nat :=
  match x with
  | some r => r.customer_count
  | none => 0

/-- The `customer_share` cell of a (possibly null) summary row. -/
def optCustomerShare (x : Option SegmentRow) : ℚ :=
  match x with
  | some r => r.customer_share
  | none => 0

/-- The `order_share` cell of a (possibly null) summary row. -/
def optOrderShare (x : Option SegmentRow) : ℚ :=
  match x with
  | some r => r.order_share
  | none => 0

/-- The `item_share` cell of a (possibly null) summary row. -/
def optItemShare (x : Option SegmentRow) : ℚ :=
  match x with
  | some r => r.item_share
  | none => 0

/-- Sum of the `customer_share` column over the four segment rows
(null rows are skipped, as in pandas). -/
def customerShareSum (summary : List (String × Option SegmentRow)) : ℚ :=
  (summary.map (fun p => optCustomerShare p.2)).sum

/-- Sum of the `order_share` column over the four segment rows. -/
def orderShareSum (summary : List (String × Option SegmentRow)) : ℚ :=
  (summary.map (fun p => optOrderShare p.2)).sum

/-- Sum of the `item_share` column over the four segment rows. -/
def itemShareSum (summary : List (String × Option SegmentRow)) : ℚ :=
  (summary.map (fun p => optItemShare p.2)).sum

/-- Sum of the `customer_count` column over the four segment rows. -/
def customerCountSum (summary : List (String × Option SegmentRow)) : Nat :=
  (summary.map (fun p => optCount p.2)).sum

/-- Embeds `Series.quantile(q)` with pandas' default linear interpolation, on an
already-sorted list: position `q·(n−1)`, interpolating between the two
adjacent order statistics. -/
def quantileSorted (s : List ℚ) (q : ℚ) : ℚ :=
  let n := s.length
  let pos := q * ((n : ℚ) - 1)
  let lo := (⌊pos⌋).toNat
  let frac := pos - (lo : ℚ)
  let vlo := s.getD lo 0
  let vhi := s.getD (min (lo + 1) (n - 1)) 0
  vlo + frac * (vhi - vlo)

/-- Embeds `Series.quantile(q)`. -/
def quantile (l : List ℚ) (q : ℚ) : ℚ :=
  quantileSorted (List.insertionSort (· ≤ ·) l) q

/-- Embeds `assign_basket_segment` (decomposition.py lines 289–297), given the three
quartile cut points. -/
def assign_basket_segment (q25 q50 q75 : ℚ) (basket_size : ℚ) : String :=
  if basket_size ≤ q25 then "Small Basket"
  else if basket_size ≤ q50 then "Medium Basket"
  else if basket_size ≤ q75 then "Large Basket"
  else "XL Basket"

/-- One row of the basket-size segment summary (decomposition.py lines
301–311). -/
structure BasketRow where
  customer_count : Nat
  orders : ℚ
  items : ℚ
  avg_basket_size : ℚ
  orders_per_customer : ℚ
  vpac : ℚ
  deriving Repr, DecidableEq

/-- Embeds `CustomerSegmentation.segment_by_basket_size` (decomposition.py lines
275–313).  Returns the post-call state of the caller's table — the function
assigns a `basket_segment` column onto its input at line 299 — together with
the groupby summary (populated segments only, in pandas' sorted label
order). -/
def segment_by_basket_size (user_kpis : UserTable) :
    UserTable × List (String × BasketRow) :=
  let basketSizes := user_kpis.rows.map (fun r => r.avg_basket_size)
  let q25 := quantile basketSizes (1/4)
  let q50 := quantile basketSizes (1/2)
  let q75 := quantile basketSizes (3/4)
  let assign := assign_basket_segment q25 q50 q75
  let mutated := setExtraCol user_kpis "basket_segment"
    (user_kpis.rows.map (fun r => assign r.avg_basket_size))
  let labels := ["Large Basket", "Medium Basket", "Small Basket", "XL Basket"]
  let summary := labels.filterMap (fun s =>
    let g := user_kpis.rows.filter (fun r => assign r.avg_basket_size == s)
    if g.isEmpty then none
    else
      let opcMean := meanQ (g.map (fun r => r.orders_per_customer))
      let absMean := meanQ (g.map (fun r => r.avg_basket_size))
      let row : BasketRow :=
        { customer_count := g.length
          orders := (g.map (fun r => r.orders)).sum
          items := (g.map (fun r => r.items)).sum
          avg_basket_size := absMean
          orders_per_customer := opcMean
          vpac := opcMean * absMean }
      some (s, row))
  (mutated, summary)

/-! ### Concrete example inputs used by witnesses and counterexamples -/

/-- A one-customer user-level table with every column the registry's metrics
read, at healthy values. -/
def dfHealthy : DataFrame :=
  ⟨[("user_id", [some 1]), ("orders", [some 2]), ("orders_per_customer", [some 2]),
    ("avg_basket_size", [some 60]), ("reorder_rate", [some (1/2)]),
    ("small_basket_share", [some (1/10)]), ("median_days_since_prior", [some 7])]⟩

/-- A table whose `orders` column disagrees with its `orders_per_customer`
column (the data provider's contract equates them). -/
def dfDivergent : DataFrame :=
  ⟨[("orders", [some 5]), ("orders_per_customer", [some 3]),
    ("avg_basket_size", [some 10])]⟩

/-- A table where `orders` and `orders_per_customer` agree. -/
def dfAgreeing : DataFrame :=
  ⟨[("orders", [some 2]), ("orders_per_customer", [some 2]),
    ("avg_basket_size", [some 60])]⟩

/-- An aggregated table: no `user_id` column. -/
def dfNoUserId : DataFrame :=
  ⟨[("orders_per_customer", [some 2]), ("avg_basket_size", [some 60])]⟩

/-- A USER-grain metric definition (the registry's `orders_per_customer`). -/
def opcDef : MetricDefinition :=
  { name := "orders_per_customer"
    display_name := "Orders per Customer"
    grain := MetricGrain.user
    metric_type := MetricType.driver
    formula := "AVG(orders)"
    computation_fn := compute_orders_per_customer
    unit := "orders/customer"
    description := "Average number of orders per customer (frequency)"
    owner := "Retention PM"
    owner_role := "Lifecycle"
    tier := MetricTier.P0_EXECUTIVE
    refresh_cadence := RefreshCadence.weekly
    directionality := MetricDirectionality.higher_is_better
    review_cadence := "weekly"
    thresholds := { min := some 1 } }

/-- A one-row user table (order-frequency segment: Occasional). -/
def tUsers : UserTable := ⟨[⟨1, 3, 6, 3, 2⟩], []⟩

/-- A one-row user table whose `orders` and `items` are zero, as the data
model allows (`orders` int ≥ 0): its order/item grand totals are zero. -/
def tZeroOrders : UserTable := ⟨[⟨1, 0, 0, 0, 0⟩], []⟩

end KPI

namespace KPI

/-- C1: the sum of the three driver contributions of a decomposition equals
`total_change` exactly, for positive `orders_per_customer` and
`items_per_order` in both periods (the interaction term is the residual,
decomposition.py line 124). -/
theorem C1_decomposition_exactness (p1 p2 : PeriodMetrics)
    (l1 l2 : String)
    (h1 : 0 < p1.orders_per_customer) (h2 : 0 < p2.orders_per_customer)
    (h3 : 0 < p1.items_per_order) (h4 : 0 < p2.items_per_order) :
    (decompose_vpac_change p1 p2 l1 l2).contribSum =
      (decompose_vpac_change p1 p2 l1 l2).total_change := by
  simp only [decompose_vpac_change, DecompositionResult.contribSum]
  ring

/-- C1 witness: the exactness theorem applied at the concrete periods
(vpac 50, 5 orders/customer, 10 items/order) and (60, 6, 10). -/
theorem C1_decomposition_exactness_witness :
    (decompose_vpac_change ⟨50, 5, 10⟩ ⟨60, 6, 10⟩ "P1" "P2").contribSum =
      (decompose_vpac_change ⟨50, 5, 10⟩ ⟨60, 6, 10⟩ "P1" "P2").total_change :=
  C1_decomposition_exactness ⟨50, 5, 10⟩ ⟨60, 6, 10⟩ "P1" "P2"
    (by norm_num) (by norm_num) (by norm_num) (by norm_num)

/-- C2: `decompose_vpac_change` coincides with the reference midpoint
decomposition of the spec on every input, and on the basic scenario
p1 = (vpac 50, 5, 10), p2 = (60, 6, 10) it returns total change 10,
percent change 1/5, items contribution 0, orders contribution 10,
interaction 0. -/
theorem C2_decompose_matches_reference (p1 p2 : PeriodMetrics) (l1 l2 : String) :
    decompose_vpac_change p1 p2 l1 l2 = spec_midpoint_decomposition p1 p2 l1 l2 ∧
    (decompose_vpac_change ⟨50, 5, 10⟩ ⟨60, 6, 10⟩ "P1" "P2").total_change = 10 ∧
    (decompose_vpac_change ⟨50, 5, 10⟩ ⟨60, 6, 10⟩ "P1" "P2").percent_change = 1/5 ∧
    (decompose_vpac_change ⟨50, 5, 10⟩ ⟨60, 6, 10⟩ "P1" "P2").contrib_items_per_order = 0 ∧
    (decompose_vpac_change ⟨50, 5, 10⟩ ⟨60, 6, 10⟩ "P1" "P2").contrib_orders_per_customer = 10 ∧
    (decompose_vpac_change ⟨50, 5, 10⟩ ⟨60, 6, 10⟩ "P1" "P2").contrib_interaction = 0 := by
  refine ⟨?_, by norm_num [decompose_vpac_change], by norm_num [decompose_vpac_change],
    by norm_num [decompose_vpac_change], by norm_num [decompose_vpac_change],
    by norm_num [decompose_vpac_change]⟩
  simp only [decompose_vpac_change, spec_midpoint_decomposition]
  by_cases h : p1.vpac = 0 <;> simp [h]

/-- C6: `validate_decomposition` fails with a decomposition error exactly
when the normalized residual error exceeds the tolerance, and returns
`true` otherwise; a hand-built result whose contributions sum to 8 while
`total_change = 10` fails under tolerance 1/100. -/
theorem C6_validate_decomposition (r : DecompositionResult) (tol : ℚ) :
    validate_decomposition r tol =
      (if (if r.total_change ≠ 0
            then |r.contribSum - r.total_change| / |r.total_change|
            else |r.contribSum - r.total_change|) > tol
        then Except.error ErrKind.decompositionError
        else Except.ok true) ∧
    validate_decomposition
      ⟨"vpac", 10, 10, 1/5, 4, 3, 1, "P1", "P2"⟩ (1/100) =
      Except.error ErrKind.decompositionError := by
  refine ⟨rfl, ?_⟩
  norm_num [validate_decomposition, DecompositionResult.contribSum]

end KPI

namespace KPI

/-- The method `get_status` never returns the string `ERROR` (definitions.py lines
199–224 return only OK/WARNING/CRITICAL/UNKNOWN). -/
theorem get_status_ne_error (m : MetricDefinition) (v : Cell) :
    m.get_status v ≠ "ERROR" := by
  unfold MetricDefinition.get_status
  cases v with
  | none => simp
  | some x =>
    repeat' split
    all_goals simp

/-- A value that passed `validate` cannot have CRITICAL status: `validate`
raises on exactly the hard min/max breaches that `get_status` reports as
CRITICAL. -/
theorem validate_ok_get_status (m : MetricDefinition) (v : Cell) (b : Bool)
    (h : m.validate v = Except.ok b) :
    m.get_status v = "OK" ∨ m.get_status v = "WARNING" ∨
      m.get_status v = "UNKNOWN" := by
  cases v with
  | none =>
    simp [MetricDefinition.get_status]
  | some x =>
    simp only [MetricDefinition.validate] at h
    simp only [MetricDefinition.get_status]
    cases h1 : belowBound m.thresholds.min x with
    | true => simp [h1] at h
    | false =>
      cases h2 : aboveBound m.thresholds.max x with
      | true => simp [h1, h2] at h
      | false =>
        simp only [h1, h2, Bool.false_eq_true, if_false]
        repeat' split
        all_goals simp

/-- A successful per-metric batch outcome passed `validate`. -/
theorem perMetricBatch_ok_validate (n : String) (m : MetricDefinition)
    (cache : Cache) (data : DataFrame) (v : Cell) (cache2 : Cache)
    (h : perMetricBatch n m cache data = (Except.ok v, cache2)) :
    ∃ b, m.validate v = Except.ok b := by
  unfold perMetricBatch at h
  cases hg : enforce_grain m data with
  | error e => rw [hg] at h; simp at h
  | ok u =>
    rw [hg] at h
    cases hc : cacheLookup cache n with
    | some w =>
      rw [hc] at h
      simp only at h
      cases hv : m.validate w with
      | error e => rw [hv] at h; simp at h
      | ok b =>
        rw [hv] at h
        simp only [Prod.mk.injEq, Except.ok.injEq] at h
        exact ⟨b, h.1 ▸ hv⟩
    | none =>
      rw [hc] at h
      cases hcm : m.compute data with
      | error e => rw [hcm] at h; simp at h
      | ok w =>
        rw [hcm] at h
        simp only at h
        cases hv : m.validate w with
        | error e => rw [hv] at h; simp at h
        | ok b =>
          rw [hv] at h
          simp only [Prod.mk.injEq, Except.ok.injEq] at h
          exact ⟨b, h.1 ▸ hv⟩

/-- Every row of either layer carries one of the four reachable statuses;
a row with `ERROR` status moreover has a null value and sits in the
diagnostic layer. -/
theorem byLayer_row_status (reg : List (String × MetricDefinition))
    (cache : Cache) (data : DataFrame) (row : MetricRow)
    (h : row ∈ (compute_metrics_by_layer reg cache data).1 ∨
         row ∈ (compute_metrics_by_layer reg cache data).2.1) :
    row.status = "OK" ∨ row.status = "WARNING" ∨ row.status = "UNKNOWN" ∨
      (row.status = "ERROR" ∧ row.value = none ∧
        row ∈ (compute_metrics_by_layer reg cache data).2.1) := by
  induction reg generalizing cache with
  | nil => simp [compute_metrics_by_layer] at h
  | cons p rest ih =>
    obtain ⟨n, m⟩ := p
    simp only [compute_metrics_by_layer] at h ⊢
    cases hpm : perMetricBatch n m cache data with
    | mk outcome cache2 =>
      rw [hpm] at h
      cases outcome with
      | ok v =>
        obtain ⟨b, hv⟩ := perMetricBatch_ok_validate n m cache data v cache2 hpm
        cases ht : [MetricTier.P0_EXECUTIVE, MetricTier.P1_LEADERSHIP].contains m.tier with
        | true =>
          simp only [ht, if_true, List.mem_cons] at h ⊢
          rcases h with (h | h) | h
          · subst h
            rcases validate_ok_get_status m v b hv with hs | hs | hs <;>
              simp [buildRow, hs]
          · rcases ih cache2 (Or.inl h) with hs | hs | hs | hs
            · exact Or.inl hs
            · exact Or.inr (Or.inl hs)
            · exact Or.inr (Or.inr (Or.inl hs))
            · exact Or.inr (Or.inr (Or.inr ⟨hs.1, hs.2.1, hs.2.2⟩))
          · rcases ih cache2 (Or.inr h) with hs | hs | hs | hs
            · exact Or.inl hs
            · exact Or.inr (Or.inl hs)
            · exact Or.inr (Or.inr (Or.inl hs))
            · exact Or.inr (Or.inr (Or.inr ⟨hs.1, hs.2.1, hs.2.2⟩))
        | false =>
          simp only [ht, Bool.false_eq_true, if_false, List.mem_cons] at h ⊢
          rcases h with h | (h | h)
          · rcases ih cache2 (Or.inl h) with hs | hs | hs | hs
            · exact Or.inl hs
            · exact Or.inr (Or.inl hs)
            · exact Or.inr (Or.inr (Or.inl hs))
            · exact Or.inr (Or.inr (Or.inr ⟨hs.1, hs.2.1, Or.inr hs.2.2⟩))
          · subst h
            rcases validate_ok_get_status m v b hv with hs | hs | hs <;>
              simp [buildRow, hs]
          · rcases ih cache2 (Or.inr h) with hs | hs | hs | hs
            · exact Or.inl hs
            · exact Or.inr (Or.inl hs)
            · exact Or.inr (Or.inr (Or.inl hs))
            · exact Or.inr (Or.inr (Or.inr ⟨hs.1, hs.2.1, Or.inr hs.2.2⟩))
      | error e =>
        simp only [List.mem_cons] at h ⊢
        rcases h with h | (h | h)
        · rcases ih cache2 (Or.inl h) with hs | hs | hs | hs
          · exact Or.inl hs
          · exact Or.inr (Or.inl hs)
          · exact Or.inr (Or.inr (Or.inl hs))
          · exact Or.inr (Or.inr (Or.inr ⟨hs.1, hs.2.1, Or.inr hs.2.2⟩))
        · subst h
          exact Or.inr (Or.inr (Or.inr ⟨rfl, rfl, Or.inl rfl⟩))
        · rcases ih cache2 (Or.inr h) with hs | hs | hs | hs
          · exact Or.inl hs
          · exact Or.inr (Or.inl hs)
          · exact Or.inr (Or.inr (Or.inl hs))
          · exact Or.inr (Or.inr (Or.inr ⟨hs.1, hs.2.1, Or.inr hs.2.2⟩))

/-- The two layers together hold one row per registry entry. -/
theorem byLayer_length (reg : List (String × MetricDefinition))
    (cache : Cache) (data : DataFrame) :
    (compute_metrics_by_layer reg cache data).1.length +
      (compute_metrics_by_layer reg cache data).2.1.length = reg.length := by
  induction reg generalizing cache with
  | nil => simp [compute_metrics_by_layer]
  | cons p rest ih =>
    obtain ⟨n, m⟩ := p
    simp only [compute_metrics_by_layer]
    cases hpm : perMetricBatch n m cache data with
    | mk outcome cache2 =>
      cases outcome with
      | ok v =>
        simp only
        cases ht : [MetricTier.P0_EXECUTIVE, MetricTier.P1_LEADERSHIP].contains m.tier with
        | true => simp only [if_true, List.length_cons]; rw [← ih cache2]; omega
        | false =>
          simp only [Bool.false_eq_true, if_false, List.length_cons]
          rw [← ih cache2]; omega
      | error e =>
        simp only [List.length_cons]
        rw [← ih cache2]; omega

/-- Every registry entry contributes a row (in one of the layers) bearing
its metric name. -/
theorem byLayer_coverage (reg : List (String × MetricDefinition))
    (cache : Cache) (data : DataFrame) (p : String × MetricDefinition)
    (hp : p ∈ reg) :
    ∃ row, (row ∈ (compute_metrics_by_layer reg cache data).1 ∨
            row ∈ (compute_metrics_by_layer reg cache data).2.1) ∧
      row.metric_name = p.1 := by
  induction reg generalizing cache with
  | nil => simp at hp
  | cons q rest ih =>
    obtain ⟨n, m⟩ := q
    simp only [compute_metrics_by_layer]
    cases hpm : perMetricBatch n m cache data with
    | mk outcome cache2 =>
      rcases List.mem_cons.mp hp with hq | hq
      · subst hq
        cases outcome with
        | ok v =>
          simp only
          cases ht : [MetricTier.P0_EXECUTIVE, MetricTier.P1_LEADERSHIP].contains m.tier with
          | true =>
            exact ⟨buildRow n m v (m.get_status v),
              Or.inl (by simp), rfl⟩
          | false =>
            exact ⟨buildRow n m v (m.get_status v),
              Or.inr (by simp), rfl⟩
        | error e =>
          exact ⟨buildRow n m none "ERROR", Or.inr (by simp), rfl⟩
      · obtain ⟨row, hmem, hname⟩ := ih cache2 hq
        cases outcome with
        | ok v =>
          simp only
          cases ht : [MetricTier.P0_EXECUTIVE, MetricTier.P1_LEADERSHIP].contains m.tier with
          | true =>
            refine ⟨row, ?_, hname⟩
            rcases hmem with hmem | hmem
            · exact Or.inl (by simp [hmem])
            · exact Or.inr hmem
          | false =>
            refine ⟨row, ?_, hname⟩
            rcases hmem with hmem | hmem
            · exact Or.inl hmem
            · exact Or.inr (by simp [hmem])
        | error e =>
          refine ⟨row, ?_, hname⟩
          rcases hmem with hmem | hmem
          · exact Or.inl hmem
          · exact Or.inr (by simp [hmem])

end KPI

namespace KPI

/-- C3: for every registry, cache state and input table, the batch
operations return one row per registered metric (they always complete);
every `ERROR`-status row has a null value and sits in the diagnostic
table; and whenever the per-metric pipeline fails for the metric at hand,
its null-valued `ERROR` row is in the diagnostic table while the remaining
metrics are still processed. -/
theorem C3_batch_error_containment
    (reg : List (String × MetricDefinition)) (cache : Cache) (data : DataFrame) :
    ((compute_all_metrics reg cache data).1.length = reg.length) ∧
    (∀ p, p ∈ reg → ∃ row, row ∈ (compute_all_metrics reg cache data).1 ∧
        row.metric_name = p.1) ∧
    (∀ row, row ∈ (compute_all_metrics reg cache data).1 → row.status = "ERROR" →
        row.value = none ∧ row ∈ (compute_metrics_by_layer reg cache data).2.1) ∧
    (∀ n m rest2, reg = (n, m) :: rest2 →
      ∀ e, (perMetricBatch n m cache data).1 = Except.error e →
        buildRow n m none "ERROR" ∈ (compute_metrics_by_layer reg cache data).2.1) := by
  refine ⟨?_, ?_, ?_, ?_⟩
  · simp only [compute_all_metrics, List.length_append]
    exact byLayer_length reg cache data
  · intro p hp
    obtain ⟨row, hmem, hname⟩ := byLayer_coverage reg cache data p hp
    refine ⟨row, ?_, hname⟩
    simp only [compute_all_metrics, List.mem_append]
    exact hmem
  · intro row hrow herr
    have hmem : row ∈ (compute_metrics_by_layer reg cache data).1 ∨
        row ∈ (compute_metrics_by_layer reg cache data).2.1 := by
      simpa [compute_all_metrics, List.mem_append] using hrow
    rcases byLayer_row_status reg cache data row hmem with hs | hs | hs | hs
    · rw [herr] at hs; simp at hs
    · rw [herr] at hs; simp at hs
    · rw [herr] at hs; simp at hs
    · exact ⟨hs.2.1, hs.2.2⟩
  · intro n m rest2 hreg e he
    subst hreg
    simp only [compute_metrics_by_layer]
    rcases hpm : perMetricBatch n m cache data with ⟨outcome, cache2⟩
    rw [hpm] at he
    cases outcome with
    | ok v => simp at he
    | error e2 => simp

/-- C10: every row produced by `compute_all_metrics` or
`compute_metrics_by_layer` carries one of the statuses OK, WARNING,
UNKNOWN or ERROR — never CRITICAL, because a hard min/max threshold
breach already raises inside `validate` before `get_status` runs, so it
surfaces as a null-valued `ERROR` row. -/
theorem C10_no_critical_status
    (reg : List (String × MetricDefinition)) (cache : Cache) (data : DataFrame) :
    ((compute_all_metrics reg cache data).1 ++
     (compute_metrics_by_layer reg cache data).1 ++
     (compute_metrics_by_layer reg cache data).2.1).Forall
      (fun row =>
        (row.status = "OK" ∨ row.status = "WARNING" ∨ row.status = "UNKNOWN" ∨
          row.status = "ERROR") ∧ row.status ≠ "CRITICAL") := by
  rw [List.forall_iff_forall_mem]
  intro row hrow
  have hmem : row ∈ (compute_metrics_by_layer reg cache data).1 ∨
      row ∈ (compute_metrics_by_layer reg cache data).2.1 := by
    rcases List.mem_append.mp hrow with h | h
    · rcases List.mem_append.mp h with h | h
      · simpa [compute_all_metrics, List.mem_append] using h
      · exact Or.inl h
    · exact Or.inr h
  rcases byLayer_row_status reg cache data row hmem with hs | hs | hs | hs
  · exact ⟨Or.inl hs, by simp [hs]⟩
  · exact ⟨Or.inr (Or.inl hs), by simp [hs]⟩
  · exact ⟨Or.inr (Or.inr (Or.inl hs)), by simp [hs]⟩
  · exact ⟨Or.inr (Or.inr (Or.inr hs.1)), by simp [hs.1]⟩

end KPI

namespace KPI

/-- C4 counterexample: with a memoized value for the USER-grain metric
`orders_per_customer` and caching requested, the single-metric path returns
the cached value against a table lacking `user_id` — it does not fail with a
grain mismatch, because `compute` checks the cache (compute.py line 169)
before enforcing grain (line 176). -/
theorem C4_cached_value_skips_grain_check :
    engine_compute [("orders_per_customer", opcDef)] "orders_per_customer"
        true [("orders_per_customer", some 5)] dfNoUserId =
      (Except.ok (some 5), [("orders_per_customer", some 5)]) ∧
    (engine_compute [("orders_per_customer", opcDef)] "orders_per_customer"
        true [("orders_per_customer", some 5)] dfNoUserId).1 ≠
      Except.error ErrKind.grainMismatch ∧
    opcDef.grain = MetricGrain.user ∧
    dfNoUserId.hasCol "user_id" = false := by
  have h : engine_compute [("orders_per_customer", opcDef)] "orders_per_customer"
      true [("orders_per_customer", some 5)] dfNoUserId =
      (Except.ok (some 5), [("orders_per_customer", some 5)]) := rfl
  exact ⟨h, by rw [h]; simp, rfl, rfl⟩

/-- C4 (amended): evaluating a USER-grain metric against a table lacking a
user identifier column fails with a grain mismatch on the batch path and on
the single-metric path whenever no memoized value is used (cache miss or
`use_cache=false`); but the single-metric path checks the cache *before*
grain enforcement, so with a memoized value and `use_cache=true` it returns
the cached value without raising. -/
theorem C4_grain_mismatch_amended
    (registry : List (String × MetricDefinition)) (name : String)
    (m : MetricDefinition) (cache : Cache) (data : DataFrame)
    (hfind : registry.find? (fun p => p.1 == name) = some (name, m))
    (hg : m.grain = MetricGrain.user)
    (hu : data.hasCol "user_id" = false) :
    (cacheLookup cache name = none →
      ∀ uc, engine_compute registry name uc cache data =
        (Except.error ErrKind.grainMismatch, cache)) ∧
    (engine_compute registry name false cache data =
      (Except.error ErrKind.grainMismatch, cache)) ∧
    (∀ v, cacheLookup cache name = some v →
      engine_compute registry name true cache data = (Except.ok v, cache)) ∧
    (perMetricBatch name m cache data =
      (Except.error ErrKind.grainMismatch, cache)) ∧
    (∀ rest2, buildRow name m none "ERROR" ∈
      (compute_metrics_by_layer ((name, m) :: rest2) cache data).2.1) := by
  have hge : enforce_grain m data = Except.error ErrKind.grainMismatch := by
    unfold enforce_grain
    rw [if_pos ⟨hg, by simp [hu]⟩]
  have hpb : perMetricBatch name m cache data =
      (Except.error ErrKind.grainMismatch, cache) := by
    unfold perMetricBatch
    rw [hge]
  refine ⟨?_, ?_, ?_, hpb, ?_⟩
  · intro hc uc
    unfold engine_compute
    rw [hfind]
    cases uc <;> simp [hc, hge]
  · unfold engine_compute
    rw [hfind]
    simp [hge]
  · intro v hv
    unfold engine_compute
    rw [hfind]
    simp [hv]
  · intro rest2
    simp only [compute_metrics_by_layer]
    rw [hpb]
    simp

/-- C4 witness: the amended theorem applied at the one-metric registry for
`orders_per_customer`, an empty cache, and a table without `user_id`. -/
theorem C4_grain_mismatch_amended_witness :
    engine_compute [("orders_per_customer", opcDef)] "orders_per_customer"
        false [] dfNoUserId =
      (Except.error ErrKind.grainMismatch, []) :=
  (C4_grain_mismatch_amended [("orders_per_customer", opcDef)]
    "orders_per_customer" opcDef [] dfNoUserId rfl rfl rfl).2.1

/-- C5 counterexample: on a table whose `orders` column (mean 5) disagrees
with its `orders_per_customer` column (mean 3), `compute_vpac` returns 30
while the product of `compute_orders_per_customer` and
`compute_items_per_order` is 50 — not within 0.01. -/
theorem C5_vpac_identity_counterexample :
    compute_vpac dfDivergent = Except.ok (some 30) ∧
    vpac_component_product dfDivergent = Except.ok (some 50) ∧
    ¬ |(30 : ℚ) - 50| ≤ 1/100 := by
  refine ⟨?_, ?_, by norm_num⟩ <;>
    (simp [compute_vpac, vpac_component_product, compute_orders_per_customer,
      compute_items_per_order, DataFrame.getColE, DataFrame.hasCol,
      DataFrame.getCol, meanCol, mulCell, dfDivergent]
     norm_num)

/-- C5 (amended): the VPAC identity holds — exactly, hence within the 0.01
absolute tolerance — for every table carrying the `orders_per_customer` and
`avg_basket_size` columns whose `orders` column, when present, equals its
`orders_per_customer` column (the data provider's contract). -/
theorem C5_vpac_identity_amended (data : DataFrame)
    (h1 : data.hasCol "orders_per_customer" = true)
    (h2 : data.hasCol "avg_basket_size" = true)
    (h3 : data.hasCol "orders" = false ∨
      data.getCol "orders" = data.getCol "orders_per_customer") :
    compute_vpac data = vpac_component_product data := by
  by_cases ho : data.hasCol "orders" = true
  · rcases h3 with h3 | h3
    · rw [ho] at h3; simp at h3
    · simp [compute_vpac, vpac_component_product, compute_orders_per_customer,
        compute_items_per_order, DataFrame.getColE, h1, h2, ho, h3]
  · simp [compute_vpac, vpac_component_product, compute_orders_per_customer,
      compute_items_per_order, DataFrame.getColE, h1, h2, ho]

/-- C5 witness: the amended identity applied at a concrete agreeing table. -/
theorem C5_vpac_identity_amended_witness :
    compute_vpac dfAgreeing = vpac_component_product dfAgreeing :=
  C5_vpac_identity_amended dfAgreeing rfl rfl (Or.inr rfl)

end KPI

namespace KPI

/-- The function `assign_segment` always lands in one of the four fixed segments. -/
theorem assign_segment_mem (o : ℚ) :
    assign_segment o = "One-time" ∨ assign_segment o = "Occasional" ∨
      assign_segment o = "Regular" ∨ assign_segment o = "Power User" := by
  unfold assign_segment
  split_ifs <;> simp

/-- The four segment groups partition the user rows. -/
theorem segment_partition_count (rows : List UserRow) :
    (segmentGroup rows "One-time").length + (segmentGroup rows "Occasional").length +
      (segmentGroup rows "Regular").length + (segmentGroup rows "Power User").length =
      rows.length := by
  induction rows with
  | nil => simp [segmentGroup]
  | cons r rest ih =>
    simp only [segmentGroup] at ih ⊢
    rcases assign_segment_mem r.orders with h | h | h | h <;>
      simp [List.filter_cons, h] <;> omega

/-- The customer grand total is the number of rows. -/
theorem customerGrand_eq (rows : List UserRow) :
    customerGrand rows = (rows.length : ℚ) := by
  have h := segment_partition_count rows
  simp only [customerGrand, segment_order, List.map, List.sum_cons, List.sum_nil]
  norm_cast
  omega

/-- A summary row is null exactly for an unpopulated segment. -/
theorem makeSegmentRow_eq_none (rows : List UserRow) (s : String) :
    makeSegmentRow rows s = none ↔ segmentGroup rows s = [] := by
  rcases hg : segmentGroup rows s with _ | ⟨a, l⟩ <;> simp [makeSegmentRow, hg]

/-- The `customer_count` cell of a segment's summary row is its group size. -/
theorem optCount_makeSegmentRow (rows : List UserRow) (s : String) :
    optCount (makeSegmentRow rows s) = (segmentGroup rows s).length := by
  rcases hg : segmentGroup rows s with _ | ⟨a, l⟩ <;>
    simp [makeSegmentRow, optCount, hg]

/-- The `customer_share` cell of a segment's summary row is its group size
over the customer grand total (also for a null row, whose group is empty). -/
theorem optCustomerShare_makeSegmentRow (rows : List UserRow) (s : String) :
    optCustomerShare (makeSegmentRow rows s) =
      ((segmentGroup rows s).length : ℚ) / customerGrand rows := by
  rcases hg : segmentGroup rows s with _ | ⟨a, l⟩ <;>
    simp [makeSegmentRow, optCustomerShare, hg]

/-- The `order_share` cell of a segment's summary row is its orders subtotal
over the orders grand total. -/
theorem optOrderShare_makeSegmentRow (rows : List UserRow) (s : String) :
    optOrderShare (makeSegmentRow rows s) =
      groupOrders rows s / ordersGrand rows := by
  rcases hg : segmentGroup rows s with _ | ⟨a, l⟩ <;>
    simp [makeSegmentRow, optOrderShare, groupOrders, hg]

/-- The `item_share` cell of a segment's summary row is its items subtotal
over the items grand total. -/
theorem optItemShare_makeSegmentRow (rows : List UserRow) (s : String) :
    optItemShare (makeSegmentRow rows s) =
      groupItems rows s / itemsGrand rows := by
  rcases hg : segmentGroup rows s with _ | ⟨a, l⟩ <;>
    simp [makeSegmentRow, optItemShare, groupItems, hg]

/-- The populated summary rows carry exactly the shares
segment-total / grand-total. -/
theorem makeSegmentRow_some_shares (rows : List UserRow) (s : String)
    (r : SegmentRow) (h : makeSegmentRow rows s = some r) :
    r.customer_share = ((segmentGroup rows s).length : ℚ) / customerGrand rows ∧
      r.order_share = groupOrders rows s / ordersGrand rows ∧
      r.item_share = groupItems rows s / itemsGrand rows := by
  have h1 := optCustomerShare_makeSegmentRow rows s
  have h2 := optOrderShare_makeSegmentRow rows s
  have h3 := optItemShare_makeSegmentRow rows s
  rw [h, optCustomerShare] at h1
  rw [h, optOrderShare] at h2
  rw [h, optItemShare] at h3
  exact ⟨h1, h2, h3⟩

end KPI

namespace KPI

/-- Sum of four fractions over a common nonzero denominator that add up to
the denominator. -/
theorem four_div_sum (a b c d G : ℚ) (hG : G ≠ 0)
    (hsum : a + (b + (c + (d + 0))) = G) :
    a / G + (b / G + (c / G + (d / G + 0))) = 1 := by
  field_simp
  linarith

/-- C7: `segment_by_order_frequency` assigns rows by the fixed
order-frequency rule, returns the four segments in the fixed order
One-time, Occasional, Regular, Power User, counts every row in exactly one
segment, and keeps an unpopulated segment as a null row instead of
dropping it. -/
theorem C7_segment_assignment (t : UserTable) (o : ℚ) :
    (o = 1 → assign_segment o = "One-time") ∧
    (2 ≤ o → o ≤ 4 → assign_segment o = "Occasional") ∧
    (5 ≤ o → o ≤ 10 → assign_segment o = "Regular") ∧
    (11 ≤ o → assign_segment o = "Power User") ∧
    ((segment_by_order_frequency t).2.map Prod.fst =
      ["One-time", "Occasional", "Regular", "Power User"]) ∧
    (customerCountSum (segment_by_order_frequency t).2 = t.rows.length) ∧
    (∀ s, ((s, (none : Option SegmentRow)) ∈ (segment_by_order_frequency t).2 ↔
      s ∈ segment_order ∧ segmentGroup t.rows s = [])) := by
  refine ⟨?_, ?_, ?_, ?_, ?_, ?_, ?_⟩
  · intro h
    simp [assign_segment, h]
  · intro h1 h2
    unfold assign_segment
    rw [if_neg (by intro he; rw [he] at h1; norm_num at h1), if_pos h2]
  · intro h1 h2
    unfold assign_segment
    rw [if_neg (by intro he; rw [he] at h1; norm_num at h1),
      if_neg (by intro he; linarith), if_pos h2]
  · intro h1
    unfold assign_segment
    rw [if_neg (by intro he; rw [he] at h1; norm_num at h1),
      if_neg (by intro he; linarith), if_neg (by intro he; linarith)]
  · simp [segment_by_order_frequency, segment_order]
  · have h := segment_partition_count t.rows
    simp only [customerCountSum, segment_by_order_frequency, segment_order,
      List.map_cons, List.map_nil, List.sum_cons, List.sum_nil,
      optCount_makeSegmentRow]
    omega
  · intro s
    simp only [segment_by_order_frequency, segment_order, List.map_cons,
      List.map_nil, List.mem_cons, List.not_mem_nil, or_false, Prod.mk.injEq]
    constructor
    · rintro (⟨h1, h2⟩ | ⟨h1, h2⟩ | ⟨h1, h2⟩ | ⟨h1, h2⟩) <;>
        (subst h1
         exact ⟨by simp [segment_order],
           (makeSegmentRow_eq_none t.rows _).mp h2.symm⟩)
    · rintro ⟨hs, hg⟩
      have hn := (makeSegmentRow_eq_none t.rows s).mpr hg
      rcases hs with h1 | h1 | h1 | h1 <;> subst h1 <;> simp [hn]

/-- C8 (amended): in the order-frequency segment summary of a non-empty user
table, every populated row's shares are segment total over grand total; the
`customer_share` column always sums to 1, and the `order_share` /
`item_share` columns sum to 1 whenever their grand totals are nonzero —
which the original claim assumed silently (a table of zero-order users has
grand total 0 and share sums of 0, since its shares are 0/0). -/
theorem C8_share_sums_amended (t : UserTable) (h : t.rows ≠ []) :
    customerShareSum (segment_by_order_frequency t).2 = 1 ∧
    (ordersGrand t.rows ≠ 0 →
      orderShareSum (segment_by_order_frequency t).2 = 1) ∧
    (itemsGrand t.rows ≠ 0 →
      itemShareSum (segment_by_order_frequency t).2 = 1) ∧
    (∀ s r, (s, some r) ∈ (segment_by_order_frequency t).2 →
      r.customer_share = ((segmentGroup t.rows s).length : ℚ) / customerGrand t.rows ∧
      r.order_share = groupOrders t.rows s / ordersGrand t.rows ∧
      r.item_share = groupItems t.rows s / itemsGrand t.rows) := by
  have hG : customerGrand t.rows ≠ 0 := by
    rw [customerGrand_eq]
    exact_mod_cast fun hz => h (List.length_eq_zero.mp (by exact_mod_cast hz))
  refine ⟨?_, ?_, ?_, ?_⟩
  · simp only [customerShareSum, segment_by_order_frequency, segment_order,
      List.map_cons, List.map_nil, List.sum_cons, List.sum_nil,
      optCustomerShare_makeSegmentRow]
    exact four_div_sum _ _ _ _ _ hG (by simp [customerGrand, segment_order])
  · intro hO
    simp only [orderShareSum, segment_by_order_frequency, segment_order,
      List.map_cons, List.map_nil, List.sum_cons, List.sum_nil,
      optOrderShare_makeSegmentRow]
    exact four_div_sum _ _ _ _ _ hO (by simp [ordersGrand, segment_order])
  · intro hI
    simp only [itemShareSum, segment_by_order_frequency, segment_order,
      List.map_cons, List.map_nil, List.sum_cons, List.sum_nil,
      optItemShare_makeSegmentRow]
    exact four_div_sum _ _ _ _ _ hI (by simp [itemsGrand, segment_order])
  · intro s r hm
    simp only [segment_by_order_frequency, segment_order, List.map_cons,
      List.map_nil, List.mem_cons, List.not_mem_nil, or_false,
      Prod.mk.injEq] at hm
    rcases hm with ⟨h1, h2⟩ | ⟨h1, h2⟩ | ⟨h1, h2⟩ | ⟨h1, h2⟩ <;>
      (subst h1; exact makeSegmentRow_some_shares t.rows _ r h2.symm)

/-- C8 witness: the amended theorem applied at a concrete one-row table. -/
theorem C8_share_sums_amended_witness :
    customerShareSum (segment_by_order_frequency tUsers).2 = 1 :=
  (C8_share_sums_amended tUsers (by simp [tUsers])).1

/-- C8 counterexample: the non-empty user table with one zero-order,
zero-item row has order and item grand totals 0, so its `order_share` and
`item_share` columns sum to 0 (its shares are divisions by zero — NaN in
pandas float arithmetic, 0 in this rational model; under either semantics
the column does not sum to 1 within any epsilon below 1). -/
theorem C8_share_sums_counterexample :
    tZeroOrders.rows ≠ [] ∧
    ordersGrand tZeroOrders.rows = 0 ∧
    orderShareSum (segment_by_order_frequency tZeroOrders).2 = 0 ∧
    itemShareSum (segment_by_order_frequency tZeroOrders).2 = 0 ∧
    ¬ (|orderShareSum (segment_by_order_frequency tZeroOrders).2 - 1| ≤ 1/100) := by
  have ha : assign_segment 0 = "Occasional" := by norm_num [assign_segment]
  have ho : ordersGrand tZeroOrders.rows = 0 := by
    simp [ordersGrand, segment_order, groupOrders, segmentGroup, tZeroOrders, ha]
  have hi : itemsGrand tZeroOrders.rows = 0 := by
    simp [itemsGrand, segment_order, groupItems, segmentGroup, tZeroOrders, ha]
  have h1 : orderShareSum (segment_by_order_frequency tZeroOrders).2 = 0 := by
    simp [orderShareSum, segment_by_order_frequency, segment_order,
      optOrderShare_makeSegmentRow, ho]
  have h2 : itemShareSum (segment_by_order_frequency tZeroOrders).2 = 0 := by
    simp [itemShareSum, segment_by_order_frequency, segment_order,
      optItemShare_makeSegmentRow, hi]
  refine ⟨by simp [tZeroOrders], ho, h1, h2, ?_⟩
  rw [h1]
  norm_num

/-- C9: the segmentation functions mutate the caller's table in place —
`segment_by_order_frequency` adds a `segment` column and
`segment_by_basket_size` adds a `basket_segment` column — so the user-level
table is not read-only to the core. -/
theorem C9_segmentation_mutates_input :
    (segment_by_order_frequency tUsers).1 ≠ tUsers ∧
    ((segment_by_order_frequency tUsers).1).extra = [("segment", ["Occasional"])] ∧
    (segment_by_basket_size tUsers).1 ≠ tUsers ∧
    ((segment_by_basket_size tUsers).1).extra =
      [("basket_segment", ["Small Basket"])] ∧
    tUsers.extra = [] := by
  have ha : assign_segment 3 = "Occasional" := by norm_num [assign_segment]
  have hq1 : quantile [(2 : ℚ)] (4⁻¹) = 2 := by
    norm_num [quantile, quantileSorted, List.insertionSort, List.orderedInsert]
  have hq2 : quantile [(2 : ℚ)] (2⁻¹) = 2 := by
    norm_num [quantile, quantileSorted, List.insertionSort, List.orderedInsert]
  have hq3 : quantile [(2 : ℚ)] (3/4) = 2 := by
    norm_num [quantile, quantileSorted, List.insertionSort, List.orderedInsert]
  have hb : assign_basket_segment 2 2 2 2 = "Small Basket" := by
    norm_num [assign_basket_segment]
  have h1 : ((segment_by_order_frequency tUsers).1).extra =
      [("segment", ["Occasional"])] := by
    simp [segment_by_order_frequency, setExtraCol, tUsers, ha]
  have h2 : ((segment_by_basket_size tUsers).1).extra =
      [("basket_segment", ["Small Basket"])] := by
    simp [segment_by_basket_size, setExtraCol, tUsers, hq1, hq2, hq3, hb]
  have h0 : tUsers.extra = [] := rfl
  refine ⟨?_, h1, ?_, h2, h0⟩
  · intro he
    rw [he, h0] at h1
    simp at h1
  · intro he
    rw [he, h0] at h2
    simp at h2

end KPI

namespace KPI

/-- C3 witness: the batch-completeness theorem applied at a concrete
one-metric registry whose metric fails its grain check. -/
theorem C3_batch_error_containment_witness :
    (compute_all_metrics [("orders_per_customer", opcDef)] [] dfNoUserId).1.length = 1 :=
  (C3_batch_error_containment [("orders_per_customer", opcDef)] [] dfNoUserId).1

/-- C7 witness: the assignment rule applied at the concrete order counts
1, 3, 7 and 12. -/
theorem C7_segment_assignment_witness :
    assign_segment 1 = "One-time" ∧ assign_segment 3 = "Occasional" ∧
      assign_segment 7 = "Regular" ∧ assign_segment 12 = "Power User" :=
  ⟨(C7_segment_assignment tUsers 1).1 rfl,
   (C7_segment_assignment tUsers 3).2.1 (by norm_num) (by norm_num),
   (C7_segment_assignment tUsers 7).2.2.1 (by norm_num) (by norm_num),
   (C7_segment_assignment tUsers 12).2.2.2.1 (by norm_num)⟩

end KPI
